import Mathlib

/-!
Verification of the `peppi-jlrs` glue module (`src/lib.rs`): a boundary
adapter that decodes a Slippi replay, JSON-encodes its summary records,
columnarizes the frame time series, writes it to an Arrow IPC file and
returns an immutable `Game` handle.

The Rust module is embedded shallowly.  Types from the external `peppi`
and `arrow2` crates are modelled as opaque carriers with exactly the
structure the glue code touches; every fallible external call (file open,
decode, JSON encoding, file create, writer construction, chunk write,
finalize) is an oracle supplied by an `Env` record, so a single Lean
function `read_slippi` covers all outcomes of the Rust function.  Each
ingestion run produces a `RunResult`: the ordered trace of pipeline
events, the output files written (with their Arrow part lists), and the
optional returned handle (`none` models a fatal `expect` panic).
-/

namespace PeppiJlrs

/-- External peppi character id (`peppi::game::ICE_CLIMBERS` wraps a small
integer; the concrete value is irrelevant to this module, which only
compares characters against this constant). -/
abbrev Character := Nat

/-- The designated companion-spawning character constant from peppi. -/
def ICE_CLIMBERS : Character := 14

/-- External peppi port id (`Port` enum, modelled by its index). -/
abbrev Port := Nat

/-- A player entry of the `Start` record, as consumed by this module. -/
structure Player where
  port : Port
  character : Character
deriving DecidableEq, Repr

/-- Slippi file-format version triple. -/
structure SlippiVersion where
  major : Nat
  minor : Nat
  rev : Nat
deriving DecidableEq, Repr

/-- The `slippi` sub-record of `Start` (only `version` is consumed). -/
structure Slippi where
  version : SlippiVersion
deriving DecidableEq, Repr

/-- The match-start record (`peppi::game::Start`), restricted to the
fields this module reads: the ordered player list and the version. -/
structure Start where
  slippi : Slippi
  players : List Player
deriving DecidableEq, Repr

/-- `peppi::frame::PortOccupancy`. -/
structure PortOccupancy where
  port : Port
  follower : Bool
deriving DecidableEq, Repr

/-- External peppi game-end record; opaque payload. -/
structure GameEnd where
  payload : Nat
deriving DecidableEq, Repr

/-- External peppi metadata record; opaque payload. -/
structure Metadata where
  payload : Nat
deriving DecidableEq, Repr

/-- External peppi decoded frame time series; opaque payload. -/
structure Frames where
  payload : Nat
deriving DecidableEq, Repr

/-- `peppi::game::immutable::Game`: the decoded replay. -/
structure SlippiGame where
  start : Start
  «end» : Option GameEnd
  metadata : Option Metadata
  hash : Option String
  frames : Frames
deriving DecidableEq, Repr

/-- `peppi::io::slippi::de::Opts`; only `skip_frames` is set by this
module, the rest is `Default::default()`. -/
structure SlippiReadOpts where
  skip_frames : Bool := false
deriving DecidableEq, Repr

/-- External arrow2 logical data type, opaque here. -/
structure DataType where
  tag : Nat
deriving DecidableEq, Repr

/-- External arrow2 struct array (`Frames::into_struct_array` output):
its logical data type plus an opaque payload. -/
structure StructArray where
  data_type : DataType
  payload : Nat
deriving DecidableEq, Repr

/-- arrow2 `Field` of a schema, with the attributes the code sets. -/
structure Field where
  name : String
  data_type : DataType
  is_nullable : Bool
  metadata : List (String × String)
deriving DecidableEq, Repr

/-- arrow2 `Schema` built from its field list. -/
structure Schema where
  fields : List Field
deriving DecidableEq, Repr

/-- arrow2 `Chunk`: the arrays written as one record batch. -/
structure Chunk where
  arrays : List StructArray
deriving DecidableEq, Repr

/-- arrow2 `WriteOptions` (the only knob is optional compression,
modelled by an opaque codec tag). -/
structure WriteOptions where
  compression : Option Nat
deriving DecidableEq, Repr

/-- The parts an arrow2 `FileWriter` appends to the output file:
`try_new` writes the schema header (carrying the write options in force),
`write` appends one data chunk, `finish` appends the finalize footer. -/
inductive ArrowPart where
  | header (schema : Schema) (opts : WriteOptions)
  | chunk (c : Chunk)
  | footer
deriving DecidableEq, Repr

/-- Pipeline events, emitted in the evaluation order of `read_slippi`. -/
inductive Event where
  | openInput (path : String)
  | decodeEv (opts : SlippiReadOpts)
  | encodeStartEv
  | encodeEndEv
  | encodeMetadataEv
  | occupancyEv
  | columnarizeEv
  | createOutput (path : String)
  | writerNew
  | writeChunkEv
  | finishEv
  | constructHandle
deriving DecidableEq, Repr

/-- The handle exported to Julia (Rust struct `Game`). -/
structure Game where
  start : String
  «end» : Option String
  metadata : Option String
  hash : Option String
  frames_arrow_path : String
deriving DecidableEq, Repr

/-- `Game::get_start`: returns the stored start text. -/
def Game.get_start (g : Game) : String := g.start

/-- `Game::get_end`: `self.end.as_deref().unwrap_or("")`. -/
def Game.get_end (g : Game) : String := g.«end».getD ""

/-- `Game::get_metadata`: `self.metadata.as_deref().unwrap_or("")`. -/
def Game.get_metadata (g : Game) : String := g.metadata.getD ""

/-- `Game::get_hash`: `self.hash.as_deref().unwrap_or("")`. -/
def Game.get_hash (g : Game) : String := g.hash.getD ""

/-- `Game::get_frames_arrow_path`: returns the stored path. -/
def Game.get_frames_arrow_path (g : Game) : String := g.frames_arrow_path

/-- External collaborators and IO outcomes of one ingestion call.
Function fields model the external crates (peppi decode, serde_json,
arrow2 columnarization); Boolean fields model whether each fallible
filesystem/writer step succeeds in this call. -/
structure Env where
  readFileOk : String → Bool
  decode : String → SlippiReadOpts → Option SlippiGame
  encodeStart : Start → Option String
  encodeEnd : GameEnd → Option String
  encodeMetadata : Metadata → Option String
  intoStructArray : Frames → SlippiVersion → List PortOccupancy → StructArray
  tempDir : String
  createFileOk : String → Bool
  tryNewOk : Bool
  writeChunkOk : Bool
  finishOk : Bool

/-- Result of one `read_slippi` call: the ordered event trace, the
output files written (path with Arrow parts present when the call ends),
and the returned handle (`none` = fatal abort via `expect`). -/
structure RunResult where
  trace : List Event
  files : List (String × List ArrowPart)
  ret : Option Game
deriving Repr

/-- `fn port_occupancy(start: &Start) -> Vec<PortOccupancy>`. -/
def port_occupancy (start : Start) : List PortOccupancy :=
  start.players.map (fun p => { port := p.port, follower := p.character == ICE_CLIMBERS })

/-- The parse options built by `read_slippi`:
`Opts { skip_frames: skip_frames != 0, ..Default::default() }`. -/
def mkOpts (skip_frames : Int) : SlippiReadOpts :=
  { skip_frames := skip_frames != 0 }

/-- The destination path:
`std::env::temp_dir().join(format!("slippi_frames_{}.arrow", hash.as_deref().unwrap_or("unknown")))`. -/
def arrowPathOf (env : Env) (sg : SlippiGame) : String :=
  env.tempDir ++ "/slippi_frames_" ++ (sg.hash.getD "unknown") ++ ".arrow"

/-- The columnarized frames:
`slippi_game.frames.into_struct_array(version, &port_occupancy(&start))`. -/
def framesStructArray (env : Env) (sg : SlippiGame) : StructArray :=
  env.intoStructArray sg.frames sg.start.slippi.version (port_occupancy sg.start)

/-- The schema built by `read_slippi`: one field named `"frame"` whose
data type is that of the columnarized frames struct, non-nullable,
default metadata. -/
def mkSchema (env : Env) (sg : SlippiGame) : Schema :=
  { fields := [{ name := "frame"
               , data_type := (framesStructArray env sg).data_type
               , is_nullable := false
               , metadata := [] }] }

/-- The chunk written by `read_slippi`: the single struct array. -/
def mkChunk (env : Env) (sg : SlippiGame) : Chunk :=
  { arrays := [framesStructArray env sg] }

/-- `WriteOptions { compression: None }`. -/
def writeOpts : WriteOptions := { compression := none }

/-- The handle constructed at the end of a successful call. -/
def mkGame (env : Env) (sg : SlippiGame) : Game :=
  { start := (env.encodeStart sg.start).getD ""
  , «end» := sg.«end».bind env.encodeEnd
  , metadata := sg.metadata.bind env.encodeMetadata
  , hash := sg.hash
  , frames_arrow_path := arrowPathOf env sg }

/-- `fn read_slippi(path: JuliaString, skip_frames: i8) -> CCallRefRet<Game>`,
with every `expect` abort modelled as `ret := none` at the point of failure.
The trace mirrors the Rust statement order: open, decode, the three
serde_json encodings, `port_occupancy`, `into_struct_array`, output-file
creation, `FileWriter::try_new` (schema header), `write` (chunk),
`finish` (footer), handle construction. -/
def read_slippi (env : Env) (path : String) (skip_frames : Int) : RunResult :=
  let t0 : List Event := [.openInput path]
  if env.readFileOk path then
    let opts := mkOpts skip_frames
    match env.decode path opts with
    | none => { trace := t0 ++ [.decodeEv opts], files := [], ret := none }
    | some slippi_game =>
      let t1 := t0 ++ [.decodeEv opts]
      let t2 := t1 ++ [.encodeStartEv]
      let t3 := t2 ++ (if slippi_game.«end».isSome then [.encodeEndEv] else [])
      let t4 := t3 ++ (if slippi_game.metadata.isSome then [.encodeMetadataEv] else [])
      let t5 := t4 ++ [.occupancyEv]
      let t6 := t5 ++ [.columnarizeEv]
      let arrow_path := arrowPathOf env slippi_game
      if env.createFileOk arrow_path then
        let t7 := t6 ++ [.createOutput arrow_path]
        if env.tryNewOk then
          let t8 := t7 ++ [.writerNew]
          if env.writeChunkOk then
            let t9 := t8 ++ [.writeChunkEv]
            if env.finishOk then
              { trace := t9 ++ [.finishEv, .constructHandle]
              , files := [(arrow_path,
                  [.header (mkSchema env slippi_game) writeOpts,
                   .chunk (mkChunk env slippi_game), .footer])]
              , ret := some (mkGame env slippi_game) }
            else
              { trace := t9
              , files := [(arrow_path,
                  [.header (mkSchema env slippi_game) writeOpts,
                   .chunk (mkChunk env slippi_game)])]
              , ret := none }
          else
            { trace := t8
            , files := [(arrow_path, [.header (mkSchema env slippi_game) writeOpts])]
            , ret := none }
        else
          { trace := t7, files := [(arrow_path, [])], ret := none }
      else
        { trace := t6, files := [], ret := none }
  else
    { trace := t0, files := [], ret := none }

/-! ### Run characterization -/

/-- On a fully successful run, `read_slippi` produces this trace, this
single finalized output file, and the handle `mkGame env sg`. -/
theorem read_slippi_success (env : Env) (path : String) (flag : Int) (sg : SlippiGame)
    (hopen : env.readFileOk path = true)
    (hdec : env.decode path (mkOpts flag) = some sg)
    (hcreate : env.createFileOk (arrowPathOf env sg) = true)
    (hnew : env.tryNewOk = true) (hw : env.writeChunkOk = true) (hf : env.finishOk = true) :
    read_slippi env path flag =
      { trace := [.openInput path, .decodeEv (mkOpts flag), .encodeStartEv] ++
          (if sg.«end».isSome then [.encodeEndEv] else []) ++
          (if sg.metadata.isSome then [.encodeMetadataEv] else []) ++
          [.occupancyEv, .columnarizeEv, .createOutput (arrowPathOf env sg),
           .writerNew, .writeChunkEv, .finishEv, .constructHandle]
      , files := [(arrowPathOf env sg,
          [.header (mkSchema env sg) writeOpts, .chunk (mkChunk env sg), .footer])]
      , ret := some (mkGame env sg) } := by
  simp [read_slippi, hopen, hdec, hcreate, hnew, hw, hf]

/-- A handle is returned only when every step succeeded, and then it is
`mkGame env sg` for the decoded game `sg`. -/
theorem read_slippi_ret_some (env : Env) (path : String) (flag : Int) (g : Game)
    (h : (read_slippi env path flag).ret = some g) :
    env.readFileOk path = true ∧
    ∃ sg, env.decode path (mkOpts flag) = some sg ∧
      env.createFileOk (arrowPathOf env sg) = true ∧
      env.tryNewOk = true ∧ env.writeChunkOk = true ∧ env.finishOk = true ∧
      g = mkGame env sg := by
  cases hopen : env.readFileOk path with
  | false => simp [read_slippi, hopen] at h
  | true =>
    cases hdec : env.decode path (mkOpts flag) with
    | none => simp [read_slippi, hopen, hdec] at h
    | some sg =>
      cases hcreate : env.createFileOk (arrowPathOf env sg) with
      | false => simp [read_slippi, hopen, hdec, hcreate] at h
      | true =>
        cases hnew : env.tryNewOk with
        | false => simp [read_slippi, hopen, hdec, hcreate, hnew] at h
        | true =>
          cases hw : env.writeChunkOk with
          | false => simp [read_slippi, hopen, hdec, hcreate, hnew, hw] at h
          | true =>
            cases hf : env.finishOk with
            | false => simp [read_slippi, hopen, hdec, hcreate, hnew, hw, hf] at h
            | true =>
              simp [read_slippi, hopen, hdec, hcreate, hnew, hw, hf] at h
              exact ⟨rfl, sg, rfl, hcreate, rfl, rfl, rfl, h.symm⟩

/-! ### Concrete instances used as witnesses -/

/-- A concrete decoded game: two players, the second an Ice Climbers,
both optional records present, hash present. -/
def sg0 : SlippiGame :=
  { start := { slippi := { version := ⟨3, 15, 0⟩ }
             , players := [⟨1, 2⟩, ⟨2, ICE_CLIMBERS⟩] }
  , «end» := some ⟨7⟩
  , metadata := some ⟨9⟩
  , hash := some "abc"
  , frames := ⟨0⟩ }

/-- A fully succeeding environment whose decoder yields `sg0`. -/
def env0 : Env :=
  { readFileOk := fun _ => true
  , decode := fun _ _ => some sg0
  , encodeStart := fun _ => some "S"
  , encodeEnd := fun _ => some "E"
  , encodeMetadata := fun _ => some "M"
  , intoStructArray := fun _ _ _ => ⟨⟨5⟩, 0⟩
  , tempDir := "/tmp"
  , createFileOk := fun _ => true
  , tryNewOk := true
  , writeChunkOk := true
  , finishOk := true }

/-- Like `env0` but every serde_json encoding fails. -/
def env1 : Env :=
  { env0 with
    encodeStart := fun _ => none
  , encodeEnd := fun _ => none
  , encodeMetadata := fun _ => none }

/-- Like `env0` but the input file cannot be opened. -/
def env2 : Env :=
  { env0 with readFileOk := fun _ => false }

/-! ### Claims -/

/-- C1: `port_occupancy` returns one entry per player of the `Start`
record, in the same order (entry `i` carries player `i`'s port), and the
follower (auxiliary) flag of entry `i` is true iff player `i`'s selected
character equals `ICE_CLIMBERS`. -/
theorem port_occupancy_matches_players (start : Start) (i : Nat) (p : Player)
    (occ : PortOccupancy)
    (hp : start.players.get? i = some p)
    (hocc : (port_occupancy start).get? i = some occ) :
    (port_occupancy start).length = start.players.length ∧
    occ = { port := p.port, follower := p.character == ICE_CLIMBERS } ∧
    (occ.follower = true ↔ p.character = ICE_CLIMBERS) := by
  unfold port_occupancy at hocc
  rw [List.get?_map, hp] at hocc
  simp only [Option.map_some'] at hocc
  cases hocc
  refine ⟨by simp [port_occupancy], rfl, ?_⟩
  simp [beq_iff_eq]

/-- Witness for C1 at a concrete two-player start record. -/
theorem port_occupancy_matches_players_witness :
    (port_occupancy sg0.start).length = sg0.start.players.length ∧
    ({ port := 2, follower := true } : PortOccupancy) =
      { port := (⟨2, ICE_CLIMBERS⟩ : Player).port
      , follower := (⟨2, ICE_CLIMBERS⟩ : Player).character == ICE_CLIMBERS } ∧
    (({ port := 2, follower := true } : PortOccupancy).follower = true ↔
      (⟨2, ICE_CLIMBERS⟩ : Player).character = ICE_CLIMBERS) :=
  port_occupancy_matches_players sg0.start 1 ⟨2, ICE_CLIMBERS⟩ ⟨2, true⟩
    (by decide) (by decide)

/-- C5: the accessors `get_end`, `get_metadata`, `get_hash` are total
functions (no error path); they return `""` when the optional field is
absent, the stored text unchanged when it is present, and therefore an
absent field and a present-but-empty field yield the same result. -/
theorem accessors_absent_empty_sentinel (g gP gE : Game) (s t u : String)
    (hEnd : g.«end» = none) (hMeta : g.metadata = none) (hHash : g.hash = none)
    (hs : gP.«end» = some s) (ht : gP.metadata = some t) (hu : gP.hash = some u)
    (hE : gE.«end» = some "") (hEm : gE.metadata = some "") (hEh : gE.hash = some "") :
    g.get_end = "" ∧ g.get_metadata = "" ∧ g.get_hash = "" ∧
    gP.get_end = s ∧ gP.get_metadata = t ∧ gP.get_hash = u ∧
    gE.get_end = g.get_end ∧ gE.get_metadata = g.get_metadata ∧
    gE.get_hash = g.get_hash := by
  simp [Game.get_end, Game.get_metadata, Game.get_hash,
    hEnd, hMeta, hHash, hs, ht, hu, hE, hEm, hEh]

/-- Concrete handle with every optional field absent. -/
def gameAbsent : Game :=
  { start := "s", «end» := none, metadata := none, hash := none
  , frames_arrow_path := "p" }

/-- Concrete handle with every optional field present and nonempty. -/
def gameFull : Game :=
  { start := "s", «end» := some "E", metadata := some "M", hash := some "H"
  , frames_arrow_path := "p" }

/-- Concrete handle with every optional field present but empty. -/
def gameEmpty : Game :=
  { start := "s", «end» := some "", metadata := some "", hash := some ""
  , frames_arrow_path := "p" }

/-- Witness for C5 at concrete handles. -/
theorem accessors_absent_empty_sentinel_witness :
    gameAbsent.get_end = "" ∧ gameAbsent.get_metadata = "" ∧
    gameAbsent.get_hash = "" ∧
    gameFull.get_end = "E" ∧ gameFull.get_metadata = "M" ∧
    gameFull.get_hash = "H" ∧
    gameEmpty.get_end = gameAbsent.get_end ∧
    gameEmpty.get_metadata = gameAbsent.get_metadata ∧
    gameEmpty.get_hash = gameAbsent.get_hash :=
  accessors_absent_empty_sentinel gameAbsent gameFull gameEmpty "E" "M" "H"
    rfl rfl rfl rfl rfl rfl rfl rfl rfl

/-- C8: when the input file cannot be opened, `read_slippi` aborts
fatally at once: the trace stops at the open attempt, no output file is
created at any path, and no handle is returned. -/
theorem open_failure_no_artifact (env : Env) (path : String) (flag : Int)
    (h : env.readFileOk path = false) :
    (read_slippi env path flag).trace = [Event.openInput path] ∧
    (read_slippi env path flag).files = [] ∧
    (read_slippi env path flag).ret = none := by
  simp [read_slippi, h]

/-- Witness for C8: an environment whose input open fails. -/
theorem open_failure_no_artifact_witness :
    (read_slippi env2 "missing.slp" 0).trace = [Event.openInput "missing.slp"] ∧
    (read_slippi env2 "missing.slp" 0).files = [] ∧
    (read_slippi env2 "missing.slp" 0).ret = none :=
  open_failure_no_artifact env2 "missing.slp" 0 rfl

/-- C10: when the serde_json encoding of the always-present `Start`
record fails, the ingestion still succeeds: a handle is returned whose
`start` field is the default empty string, and `get_start` returns `""`
(indistinguishable from a genuinely empty encoding). -/
theorem start_encoding_failure_defaults (env : Env) (path : String) (flag : Int)
    (sg : SlippiGame)
    (hopen : env.readFileOk path = true)
    (hdec : env.decode path (mkOpts flag) = some sg)
    (hcreate : env.createFileOk (arrowPathOf env sg) = true)
    (hnew : env.tryNewOk = true) (hw : env.writeChunkOk = true)
    (hf : env.finishOk = true)
    (henc : env.encodeStart sg.start = none) :
    (read_slippi env path flag).ret = some (mkGame env sg) ∧
    (mkGame env sg).start = "" ∧
    (mkGame env sg).get_start = "" := by
  rw [read_slippi_success env path flag sg hopen hdec hcreate hnew hw hf]
  exact ⟨rfl, by simp [mkGame, henc], by simp [mkGame, Game.get_start, henc]⟩

/-- Witness for C10: the environment `env1` where every encoding fails. -/
theorem start_encoding_failure_defaults_witness :
    (read_slippi env1 "replay.slp" 0).ret = some (mkGame env1 sg0) ∧
    (mkGame env1 sg0).start = "" ∧
    (mkGame env1 sg0).get_start = "" :=
  start_encoding_failure_defaults env1 "replay.slp" 0 sg0 rfl rfl rfl rfl rfl rfl rfl

/-- C2: `read_slippi` returns a handle only if writer construction, the
chunk write and the finalize step all succeeded; the run then wrote
exactly one output file, at the path stored in the handle, whose content
ends with the finalize footer. -/
theorem handle_only_after_finalize (env : Env) (path : String) (flag : Int) (g : Game)
    (h : (read_slippi env path flag).ret = some g) :
    env.tryNewOk = true ∧ env.writeChunkOk = true ∧ env.finishOk = true ∧
    (read_slippi env path flag).files.map Prod.fst = [g.frames_arrow_path] ∧
    (read_slippi env path flag).files.map (fun pr => pr.2.getLast?) =
      [some ArrowPart.footer] := by
  obtain ⟨hopen, sg, hdec, hcreate, hnew, hw, hf, hg⟩ :=
    read_slippi_ret_some env path flag g h
  subst hg
  rw [read_slippi_success env path flag sg hopen hdec hcreate hnew hw hf]
  exact ⟨hnew, hw, hf, rfl, rfl⟩

/-- Witness for C2 at the all-succeeding environment `env0`. -/
theorem handle_only_after_finalize_witness :
    env0.tryNewOk = true ∧ env0.writeChunkOk = true ∧ env0.finishOk = true ∧
    (read_slippi env0 "replay.slp" 0).files.map Prod.fst =
      [(mkGame env0 sg0).frames_arrow_path] ∧
    (read_slippi env0 "replay.slp" 0).files.map (fun pr => pr.2.getLast?) =
      [some ArrowPart.footer] :=
  handle_only_after_finalize env0 "replay.slp" 0 (mkGame env0 sg0) rfl

/-- C4: failure of the optional `End`/`Metadata` text encodings does not
abort the ingestion: the handle is still returned, the affected fields
degrade to `none`, and the finalized columnar artifact is still
produced. -/
theorem optional_encoding_degrades (env : Env) (path : String) (flag : Int)
    (sg : SlippiGame) (e : GameEnd) (m : Metadata)
    (hopen : env.readFileOk path = true)
    (hdec : env.decode path (mkOpts flag) = some sg)
    (hcreate : env.createFileOk (arrowPathOf env sg) = true)
    (hnew : env.tryNewOk = true) (hw : env.writeChunkOk = true)
    (hf : env.finishOk = true)
    (hend : sg.«end» = some e) (hmeta : sg.metadata = some m)
    (hence : env.encodeEnd e = none) (hencm : env.encodeMetadata m = none) :
    (read_slippi env path flag).ret = some (mkGame env sg) ∧
    (mkGame env sg).«end» = none ∧
    (mkGame env sg).metadata = none ∧
    (read_slippi env path flag).files =
      [(arrowPathOf env sg,
        [.header (mkSchema env sg) writeOpts, .chunk (mkChunk env sg), .footer])] := by
  rw [read_slippi_success env path flag sg hopen hdec hcreate hnew hw hf]
  exact ⟨rfl, by simp [mkGame, hend, hence], by simp [mkGame, hmeta, hencm], rfl⟩

/-- Witness for C4: the environment `env1` where every encoding fails. -/
theorem optional_encoding_degrades_witness :
    (read_slippi env1 "replay.slp" 0).ret = some (mkGame env1 sg0) ∧
    (mkGame env1 sg0).«end» = none ∧
    (mkGame env1 sg0).metadata = none ∧
    (read_slippi env1 "replay.slp" 0).files =
      [(arrowPathOf env1 sg0,
        [.header (mkSchema env1 sg0) writeOpts, .chunk (mkChunk env1 sg0), .footer])] :=
  optional_encoding_degrades env1 "replay.slp" 0 sg0 ⟨7⟩ ⟨9⟩
    rfl rfl rfl rfl rfl rfl rfl rfl rfl rfl

/-- C6: the destination path of the interchange file is exactly the temp
directory joined with `slippi_frames_<hash-or-"unknown">.arrow`, so for a
fixed system temp directory it is determined by the hash alone: two
decoded games with the same hash map to the same path. -/
theorem arrow_path_deterministic (env : Env) (path : String) (flag : Int)
    (sg sg' : SlippiGame) (g : Game)
    (hdec : env.decode path (mkOpts flag) = some sg)
    (h : (read_slippi env path flag).ret = some g)
    (hh : sg'.hash = sg.hash) :
    g.frames_arrow_path =
      env.tempDir ++ "/slippi_frames_" ++ (sg.hash.getD "unknown") ++ ".arrow" ∧
    arrowPathOf env sg' = arrowPathOf env sg := by
  obtain ⟨hopen, sg2, hdec2, hcreate, hnew, hw, hf, hg⟩ :=
    read_slippi_ret_some env path flag g h
  rw [hdec] at hdec2
  cases hdec2
  subst hg
  exact ⟨rfl, by simp [arrowPathOf, hh]⟩

/-- Witness for C6 at `env0` and a second game sharing `sg0`'s hash. -/
theorem arrow_path_deterministic_witness :
    (mkGame env0 sg0).frames_arrow_path =
      env0.tempDir ++ "/slippi_frames_" ++ (sg0.hash.getD "unknown") ++ ".arrow" ∧
    arrowPathOf env0 { sg0 with «end» := none } = arrowPathOf env0 sg0 :=
  arrow_path_deterministic env0 "replay.slp" 0 sg0 { sg0 with «end» := none }
    (mkGame env0 sg0) rfl rfl rfl

/-- C7: on success the interchange file holds exactly one schema header
whose single field is named "frame", non-nullable, with the data type of
the columnarized frames struct, written with compression `none`, followed
by one data chunk holding that struct array and the finalize footer. -/
theorem interchange_file_layout (env : Env) (path : String) (flag : Int)
    (sg : SlippiGame) (g : Game)
    (hdec : env.decode path (mkOpts flag) = some sg)
    (h : (read_slippi env path flag).ret = some g) :
    (read_slippi env path flag).files =
      [(arrowPathOf env sg,
        [ArrowPart.header
          { fields := [{ name := "frame"
                       , data_type := (framesStructArray env sg).data_type
                       , is_nullable := false
                       , metadata := [] }] }
          { compression := none },
         ArrowPart.chunk { arrays := [framesStructArray env sg] },
         ArrowPart.footer])] := by
  obtain ⟨hopen, sg2, hdec2, hcreate, hnew, hw, hf, hg⟩ :=
    read_slippi_ret_some env path flag g h
  rw [hdec] at hdec2
  cases hdec2
  rw [read_slippi_success env path flag sg hopen hdec hcreate hnew hw hf]
  rfl

/-- Witness for C7 at the all-succeeding environment `env0`. -/
theorem interchange_file_layout_witness :
    (read_slippi env0 "replay.slp" 0).files =
      [(arrowPathOf env0 sg0,
        [ArrowPart.header
          { fields := [{ name := "frame"
                       , data_type := (framesStructArray env0 sg0).data_type
                       , is_nullable := false
                       , metadata := [] }] }
          { compression := none },
         ArrowPart.chunk { arrays := [framesStructArray env0 sg0] },
         ArrowPart.footer])] :=
  interchange_file_layout env0 "replay.slp" 0 sg0 (mkGame env0 sg0) rfl rfl

/-- Every decode event in a run's trace carries exactly the options built
from the integer flag. -/
theorem decode_event_opts (env : Env) (path : String) (flag : Int)
    (opts : SlippiReadOpts)
    (h : Event.decodeEv opts ∈ (read_slippi env path flag).trace) :
    opts = mkOpts flag := by
  simp only [read_slippi] at h
  repeat' split at h
  all_goals simp_all

/-- C9: for every flag value in the i8 range, the external decoder is
invoked with `skip_frames` true iff the flag is nonzero — every nonzero
value, negatives included, enables skipping; only 0 disables it. -/
theorem skip_frames_nonzero_iff (env : Env) (path : String) (flag : Int)
    (hlo : -128 ≤ flag) (hhi : flag ≤ 127) (opts : SlippiReadOpts)
    (h : Event.decodeEv opts ∈ (read_slippi env path flag).trace) :
    opts.skip_frames = true ↔ flag ≠ 0 := by
  have hopts := decode_event_opts env path flag opts h
  subst hopts
  simp [mkOpts, bne_iff_ne]

/-- Witness for C9 at the negative flag value −5. -/
theorem skip_frames_nonzero_iff_witness :
    (mkOpts (-5)).skip_frames = true ↔ (-5 : Int) ≠ 0 :=
  skip_frames_nonzero_iff env0 "replay.slp" (-5) (by decide) (by decide)
    (mkOpts (-5)) (by decide)

/-- The five pipeline stages named by the spec's control flow, identified
by one representative event each: occupancy resolution, frame
columnarization, the columnar chunk write, summary text encoding, and
handle construction. -/
def stageEvents : List Event :=
  [.occupancyEv, .columnarizeEv, .writeChunkEv, .encodeStartEv, .constructHandle]

/-- Restrict a trace to the five stage events, keeping trace order. -/
def stages (t : List Event) : List Event :=
  t.filter (fun e => decide (e ∈ stageEvents))

/-- C3 counterexample: on a fully succeeding concrete run the summary
encoder fires before occupancy resolution, columnarization and the chunk
write, so the claimed stage order
occupancy → columnarize → write → encode → handle fails even though the
call succeeds. -/
theorem stage_order_claimed_cex :
    (read_slippi env0 "replay.slp" 0).ret.isSome = true ∧
    stages (read_slippi env0 "replay.slp" 0).trace ≠
      [.occupancyEv, .columnarizeEv, .writeChunkEv, .encodeStartEv,
       .constructHandle] := by
  decide

/-- C3 (amended): on every successful ingestion the stages execute in the
order summary encoding, then occupancy resolution, then frame
columnarization, then the columnar write, then handle construction. -/
theorem stage_order_amended (env : Env) (path : String) (flag : Int) (g : Game)
    (h : (read_slippi env path flag).ret = some g) :
    stages (read_slippi env path flag).trace =
      [.encodeStartEv, .occupancyEv, .columnarizeEv, .writeChunkEv,
       .constructHandle] := by
  obtain ⟨hopen, sg, hdec, hcreate, hnew, hw, hf, _⟩ :=
    read_slippi_ret_some env path flag g h
  rw [read_slippi_success env path flag sg hopen hdec hcreate hnew hw hf]
  cases hend : sg.«end» <;> cases hmeta : sg.metadata <;>
    simp [stages, stageEvents, hend, hmeta]

/-- Witness for the amended C3 at the all-succeeding environment. -/
theorem stage_order_amended_witness :
    stages (read_slippi env0 "replay.slp" 0).trace =
      [.encodeStartEv, .occupancyEv, .columnarizeEv, .writeChunkEv,
       .constructHandle] :=
  stage_order_amended env0 "replay.slp" 0 (mkGame env0 sg0) rfl

end PeppiJlrs
